import Mathlib

/-!
Verification of the probe execution / sub-rule evaluation / condition
aggregation engine of the windows-audit-cis repository, via a shallow
embedding of `executor.py`, `evaluator.py` and the driving loop of
`main.py` into Lean.

Strings are modelled as Lean `String` (a wrapper around `List Char`);
Python string primitives (`strip`, `lower`, `upper`, `split`, `in`,
`startswith`, slicing) are re-implemented below with Python's semantics
on the ASCII range used by rule expressions. The host, the Windows
registry, the filesystem and the shell are modelled by a `World` record
of oracle functions, since the engine only observes their answers.
-/

namespace WinAudit

/-- Python's default whitespace set for `str.strip` (ASCII range). -/
def isPySpace (c : Char) : Bool :=
  c == ' ' || c == '\t' || c == '\n' || c == '\r' || c == '\x0b' || c == '\x0c'

/-- ASCII lower-casing of one character, as `str.lower` acts on the
ASCII range (rule expressions in this repository are ASCII). -/
def lowerChar (c : Char) : Char :=
  if 'A' ≤ c && c ≤ 'Z' then Char.ofNat (c.toNat + 32) else c

/-- ASCII upper-casing of one character, as `str.upper` acts on the
ASCII range. -/
def upperChar (c : Char) : Char :=
  if 'a' ≤ c && c ≤ 'z' then Char.ofNat (c.toNat - 32) else c

/-- Python `s.lower()` on the ASCII range. -/
def pyLower (s : String) : String := ⟨s.data.map lowerChar⟩

/-- Python `s.upper()` on the ASCII range. -/
def pyUpper (s : String) : String := ⟨s.data.map upperChar⟩

/-- Strip Python whitespace from both ends of a character list. -/
def stripList (cs : List Char) : List Char :=
  ((cs.dropWhile isPySpace).reverse.dropWhile isPySpace).reverse

/-- Python `s.strip()` with the default whitespace set. -/
def pyStrip (s : String) : String := ⟨stripList s.data⟩

/-- Python slicing `s[n:]` (by characters). -/
def strDrop (s : String) (n : Nat) : String := ⟨s.data.drop n⟩

/-- Substring test on character lists: Python `sub in cs`. -/
def containsList (sub : List Char) : List Char → Bool
  | [] => sub.isEmpty
  | c :: t => sub.isPrefixOf (c :: t) || containsList sub t

/-- Python `sub in s` for strings. -/
def containsSub (s sub : String) : Bool := containsList sub.data s.data

/-- Python `s.startswith(p)`. -/
def startsWithStr (s p : String) : Bool := p.data.isPrefixOf s.data

/-- Python `s.split("->")` on character lists: split on every
non-overlapping occurrence of the two-character separator, scanning
left to right. -/
def splitArrowChars : List Char → List (List Char)
  | [] => [[]]
  | '-' :: '>' :: rest => [] :: splitArrowChars rest
  | c :: rest =>
    match splitArrowChars rest with
    | [] => [[c]]
    | h :: t => (c :: h) :: t

/-- Python `s.split("->")` for strings. -/
def splitArrow (s : String) : List String :=
  (splitArrowChars s.data).map (fun cs => ⟨cs⟩)

/-- Python `"; ".join(xs)`. -/
def joinSemicolon : List String → String
  | [] => ""
  | [x] => x
  | x :: y :: t => x ++ "; " ++ joinSemicolon (y :: t)

/-! ## Data model (`executor.py` / `sca_structs.py` / `evaluator.py`) -/

/-- `ExecResult` from `executor.py`: the observation record produced by
one probe execution — the normalized probe-expression string, the
observed value, and the error string (empty when no error occurred). -/
structure ExecResult where
  sub_rule : String
  value : String
  error : String
  deriving DecidableEq

/-- Compliance pass-through metadata: a list of framework dictionaries,
each mapping a framework name to a list of control-id strings
(`List[Dict[str, List[str]]]` in `sca_structs.py`). -/
def Compliance : Type := List (List (String × List String))

instance : Inhabited Compliance := ⟨([] : List (List (String × List String)))⟩

/-- `Rule` from `sca_structs.py`. -/
structure Rule where
  id : Int := 0
  title : String := ""
  description : String := ""
  rationale : String := ""
  remediation : String := ""
  compliance : Compliance := ([] : List (List (String × List String)))
  references : List String := []
  condition : String := "all"
  rules : List String := []

/-- `RuleResult` from `evaluator.py`: status and details plus a copy of
the rule's descriptive metadata. -/
structure RuleResult where
  rule_id : Int
  title : String
  status : String
  details : String
  description : String
  rationale : String
  remediation : String
  compliance : Compliance
  condition : String

/-- The four registry hives accepted by `get_hive` in `executor.py`. -/
inductive Hive where
  | hklm | hkcu | hku | hkcr
  deriving DecidableEq

/-- The host environment the engine probes. `regQuery hive path name`
models `winreg.OpenKey`/`QueryValueEx` (`name = none` reads the key's
default value); a raised exception is an `Except.error` carrying the
exception text. `fileExists` models `os.path.exists`; `runCmd` models
`subprocess.check_output(cmd, shell=True)` returning captured stdout, or
the `CalledProcessError` text on non-zero exit status. -/
structure World where
  isWindows : Bool
  regQuery : Hive → String → Option String → Except String String
  fileExists : String → Bool
  runCmd : String → Except String String

/-! ## Executor (`executor.py`) -/

/-- `split_hive` from `executor.py`: split `"HKLM\Software\MyKey"` into
`("HKLM", "Software\MyKey")` at the first backslash; the second
component is empty when there is no backslash. -/
def split_hive (reg_path : String) : String × String :=
  let a := reg_path.data.takeWhile (fun c => c != '\\')
  let b := reg_path.data.dropWhile (fun c => c != '\\')
  match b with
  | [] => (reg_path, "")
  | _ :: t => (⟨a⟩, ⟨t⟩)

/-- `get_hive` from `executor.py`: map short/long hive names (compared
upper-cased) to hive constants; unknown names raise `ValueError`. -/
def get_hive (hive_str : String) : Except String Hive :=
  let u := pyUpper hive_str
  if u = "HKLM" || u = "HKEY_LOCAL_MACHINE" then Except.ok Hive.hklm
  else if u = "HKCU" || u = "HKEY_CURRENT_USER" then Except.ok Hive.hkcu
  else if u = "HKU" || u = "HKEY_USERS" then Except.ok Hive.hku
  else if u = "HKCR" || u = "HKEY_CLASSES_ROOT" then Except.ok Hive.hkcr
  else Except.error ("Unsupported hive: " ++ hive_str)

/-- `read_registry` from `executor.py`. -/
def read_registry (w : World) (sub_rule : String) : ExecResult :=
  let rule_body := pyStrip (strDrop sub_rule 2)
  let parts := splitArrow rule_body
  match parts with
  | p0 :: p1 :: _ =>
    let reg_path := pyStrip p0
    let value_name := pyStrip p1
    let hp := split_hive reg_path
    match get_hive hp.1 with
    | Except.error e => ⟨sub_rule, "", e⟩
    | Except.ok hive =>
      let vn := if value_name = "" then none else some value_name
      match w.regQuery hive hp.2 vn with
      | Except.ok v => ⟨sub_rule, v, ""⟩
      | Except.error e => ⟨sub_rule, "", "Registry error: " ++ e⟩
  | _ => ⟨sub_rule, "", "Invalid registry rule format: missing '->'"⟩

/-- `check_file` from `executor.py`: the body up to the first `->` is
the path; the value is exactly `"exists"` or `"missing"`. -/
def check_file (w : World) (sub_rule : String) : ExecResult :=
  let rule_body := pyStrip (strDrop sub_rule 2)
  let parts := splitArrow rule_body
  let file_path := pyStrip (parts.headD "")
  if w.fileExists file_path then ⟨sub_rule, "exists", ""⟩
  else ⟨sub_rule, "missing", ""⟩

/-- `run_command` from `executor.py`: run the text after `cmd:` through
the shell; on success the value is `output.strip()`, on
`CalledProcessError` the error is `"Command error: " + str(e)`. -/
def run_command (w : World) (sub_rule : String) : ExecResult :=
  let cmd_str := pyStrip (strDrop sub_rule 4)
  match w.runCmd cmd_str with
  | Except.ok output => ⟨sub_rule, pyStrip output, ""⟩
  | Except.error e => ⟨sub_rule, "", "Command error: " ++ e⟩

/-- `execute_subrule` from `executor.py`: strip and lower-case the
expression, then dispatch on the literal tag `r:` / `f:` / `cmd:`. -/
def execute_subrule (w : World) (sub_rule0 : String) : ExecResult :=
  let sub_rule := pyLower (pyStrip sub_rule0)
  if startsWithStr sub_rule "r:" then
    if w.isWindows then read_registry w sub_rule
    else ⟨sub_rule, "", "Registry check not supported on non-Windows"⟩
  else if startsWithStr sub_rule "f:" then check_file w sub_rule
  else if startsWithStr sub_rule "cmd:" then run_command w sub_rule
  else ⟨sub_rule, "", "Unknown prefix in " ++ sub_rule⟩

/-! ## Regex-marker model (`evaluator.py`)

`evaluate_subrule` locates a trailing regex marker with
`re.search(r"->\s*regex:(.+)$", sub_rule)` (no flags). We model that
one fixed search exactly: scan left to right for the first position
where the pattern matches — a literal `->`, then a maximal run of
whitespace (greedy `\s*`; backtracking cannot help since `regex:`
starts with a non-whitespace character), then the literal `regex:`,
then the group `(.+)$`. Without `DOTALL`/`MULTILINE`, `.` does not
match a newline and `$` asserts either the end of the string or the
position just before a final newline, so the group is the remaining
text provided it is non-empty and newline-free (a single trailing
newline being dropped). -/

/-- The `(.+)$` tail of the marker search applied to the characters
after `regex:`: the greedy group, or `none` when no split satisfies
`(.+)$`. -/
def groupDollar (g : List Char) : Option (List Char) :=
  let core := if g.getLast? = some '\n' then g.dropLast else g
  if core.isEmpty || core.contains '\n' then none else some core

/-- Attempt the pattern `->\s*regex:(.+)$` anchored at the head of the
character list, returning the group on success. -/
def regexAt (cs : List Char) : Option (List Char) :=
  match cs with
  | '-' :: '>' :: rest =>
    let rest2 := rest.dropWhile isPySpace
    if ('r' :: 'e' :: 'g' :: 'e' :: 'x' :: ':' :: []).isPrefixOf rest2 then
      groupDollar (rest2.drop 6)
    else none
  | _ => none

/-- `re.search(r"->\s*regex:(.+)$", ·)`: the group of the leftmost
match, or `none`. -/
def regexSearch : List Char → Option (List Char)
  | [] => none
  | c :: t =>
    match regexAt (c :: t) with
    | some g => some g
    | none => regexSearch t

/-- String-level wrapper for the marker search. -/
def regexMarkerSearch (s : String) : Option String :=
  (regexSearch s.data).map (fun g => ⟨g⟩)

/-- Modelled from Python's `re` module (an external library): the
semantics of `re.match(pattern, value)` for the restricted pattern
class used in the concrete examples of this development — a literal
string, optionally anchored by a leading caret and/or a trailing
dollar. `re.match` already anchors at position zero, so a leading
caret is a no-op; without a trailing dollar the pattern is a prefix
test on the value; with one the match must reach the end of the value
(or the position just before a single final newline). Matching is
case-sensitive, as Python's default. -/
def pyMatch (pattern vl : String) : Bool :=
  let p :=
    match pattern.data with
    | '^' :: t => t
    | q => q
  match p.getLast? with
  | some '$' => vl.data == p.dropLast || vl.data == p.dropLast ++ ['\n']
  | _ => p.isPrefixOf vl.data

/-! ## Sub-rule evaluator (`evaluator.py`)

`evaluate_subrule` is parameterized by `reMatch`, the semantics of
Python's `re.match(pattern, value) is not None` — a match of the
pattern against the value anchored at position zero (a prefix match,
not a whole-string match). Theorems about arbitrary patterns quantify
over `reMatch`; concrete examples instantiate it with `pyMatch`. -/

/-- `evaluate_subrule` from `evaluator.py`: a probe error fails
immediately with the error as the reason; otherwise the lowercased
expression is searched for `-> exists`, then `-> missing`, then a
trailing `-> regex:` marker; with no marker the verdict defaults to
pass with reason `"no condition recognized"`. -/
def evaluate_subrule (reMatch : String → String → Bool)
    (exec_result : ExecResult) : Bool × String :=
  if exec_result.error ≠ "" then (false, exec_result.error)
  else
    let sub_rule := pyLower exec_result.sub_rule
    let vl := exec_result.value
    if containsSub sub_rule "-> exists" then
      if vl = "exists" then (true, "file found")
      else (false, "file not found (" ++ vl ++ ")")
    else if containsSub sub_rule "-> missing" then
      if vl = "missing" then (true, "file is missing")
      else (false, "file is present (" ++ vl ++ ")")
    else
      match regexMarkerSearch sub_rule with
      | some grp =>
        let pattern := pyStrip grp
        if reMatch pattern vl then (true, "regex matched")
        else (false, "regex '" ++ pattern ++ "' did not match '" ++ vl ++ "'")
      | none => (true, "no condition recognized")

/-! ## Rule evaluator (`evaluator.py`) -/

/-- The normalized condition of a rule:
`rule.condition.lower() if rule.condition else "all"`. -/
def condNorm (rule : Rule) : String :=
  if rule.condition = "" then "all" else pyLower rule.condition

/-- The count of passing sub-rules among the execution results. -/
def passedCount (reMatch : String → String → Bool)
    (exec_results : List ExecResult) : Nat :=
  exec_results.countP (fun r => (evaluate_subrule reMatch r).1)

/-- The ordered fail reasons collected by the evaluation loop, each
prefixed with its originating expression in brackets. -/
def failReasons (reMatch : String → String → Bool)
    (exec_results : List ExecResult) : List String :=
  exec_results.filterMap (fun r =>
    if (evaluate_subrule reMatch r).1 then none
    else some ("[" ++ r.sub_rule ++ "] " ++ (evaluate_subrule reMatch r).2))

/-- The condition logic of `evaluate_rule`: `all` requires every
sub-rule to pass, `any` at least one, `none` none; any other
(normalized) condition string falls through to the `all` test. -/
def rulePassed (reMatch : String → String → Bool) (rule : Rule)
    (exec_results : List ExecResult) : Bool :=
  let total := exec_results.length
  let passed_subrules := passedCount reMatch exec_results
  let cond := condNorm rule
  if cond = "all" then passed_subrules == total
  else if cond = "any" then decide (0 < passed_subrules)
  else if cond = "none" then passed_subrules == 0
  else passed_subrules == total

/-- `evaluate_rule` from `evaluator.py`. -/
def evaluate_rule (reMatch : String → String → Bool) (rule : Rule)
    (exec_results : List ExecResult) : RuleResult :=
  let total := exec_results.length
  let passed_subrules := passedCount reMatch exec_results
  let fail_reasons := failReasons reMatch exec_results
  let passed := rulePassed reMatch rule exec_results
  let status := if passed then "PASS" else "FAIL"
  let details :=
    if !passed && !fail_reasons.isEmpty then joinSemicolon fail_reasons
    else Nat.repr passed_subrules ++ "/" ++ Nat.repr total ++ " sub-rules passed"
  ⟨rule.id, rule.title, status, details, rule.description, rule.rationale,
    rule.remediation, rule.compliance, rule.condition⟩

/-! ## Pipeline (`main.py`) -/

/-- The execute-and-evaluate loop of `main.py`: for each rule, execute
every sub-rule expression in order, evaluate the rule over the
resulting observations, and collect one `RuleResult` per rule in
order. -/
def runPipeline (reMatch : String → String → Bool) (w : World)
    (rules : List Rule) : List RuleResult :=
  rules.map (fun rule =>
    evaluate_rule reMatch rule (rule.rules.map (execute_subrule w)))

/-! ## Helper lemmas -/

theorem stringDataInj {a b : String} (h : a.data = b.data) : a = b := by
  cases a
  cases b
  simp only at h
  rw [h]

theorem strAppendData (a b : String) : (a ++ b).data = a.data ++ b.data := rfl

theorem appendNeEmptyLeft (a b : String) (h : a ≠ "") : a ++ b ≠ "" := by
  intro hab
  apply h
  have h2 : (a ++ b).data = ("" : String).data := congrArg String.data hab
  rw [strAppendData] at h2
  have h3 : a.data = [] := List.append_eq_nil.mp h2 |>.1
  exact stringDataInj h3

theorem pyLowerAppend (a b : String) : pyLower (a ++ b) = pyLower a ++ pyLower b := by
  apply stringDataInj
  show (a ++ b).data.map lowerChar = (pyLower a ++ pyLower b).data
  rw [strAppendData, strAppendData, List.map_append]
  rfl

theorem isPrefixOfAppendSelf (a b : List Char) : a.isPrefixOf (a ++ b) = true := by
  induction a with
  | nil => simp [List.isPrefixOf]
  | cons c t ih => simp [List.isPrefixOf, ih]

theorem containsListOfIsPrefixOf (sub cs : List Char)
    (h : sub.isPrefixOf cs = true) : containsList sub cs = true := by
  cases cs with
  | nil =>
    cases sub with
    | nil => rfl
    | cons c t => exact absurd h (by simp [List.isPrefixOf])
  | cons c t => simp [containsList, h]

theorem filterMapNilOfAll {α β : Type} (f : α → Option β) :
    ∀ (l : List α), (∀ a ∈ l, f a = none) → l.filterMap f = [] := by
  intro l
  induction l with
  | nil => intro _; rfl
  | cons a t ih =>
    intro h
    have ha : f a = none := h a (List.mem_cons_self a t)
    have ht := ih (fun x hx => h x (List.mem_cons_of_mem a hx))
    simp [List.filterMap_cons, ha, ht]

theorem countPEqLengthOfAll (p : ExecResult → Bool) (l : List ExecResult)
    (h : ∀ a ∈ l, p a = true) : l.countP p = l.length := by
  induction l with
  | nil => rfl
  | cons a t ih =>
    have ha : p a = true := h a (List.mem_cons_self a t)
    have ht := ih (fun x hx => h x (List.mem_cons_of_mem a hx))
    simp [List.countP_cons, ha, ht]

/-- A probe-level error short-circuits the evaluator: the verdict is a
fail carrying the error text, whatever the regex semantics. -/
theorem evaluateSubruleErr (reMatch : String → String → Bool)
    (r : ExecResult) (h : r.error ≠ "") :
    evaluate_subrule reMatch r = (false, r.error) := by
  unfold evaluate_subrule
  simp [h]

theorem evaluateRuleStatus (reMatch : String → String → Bool) (rule : Rule)
    (ers : List ExecResult) :
    (evaluate_rule reMatch rule ers).status =
      if rulePassed reMatch rule ers then "PASS" else "FAIL" := rfl

theorem evaluateRuleDetails (reMatch : String → String → Bool) (rule : Rule)
    (ers : List ExecResult) :
    (evaluate_rule reMatch rule ers).details =
      if !rulePassed reMatch rule ers && !(failReasons reMatch ers).isEmpty
      then joinSemicolon (failReasons reMatch ers)
      else Nat.repr (passedCount reMatch ers) ++ "/" ++
        Nat.repr ers.length ++ " sub-rules passed" := rfl

theorem statusPassIff (reMatch : String → String → Bool) (rule : Rule)
    (ers : List ExecResult) :
    ((evaluate_rule reMatch rule ers).status = "PASS") ↔
      rulePassed reMatch rule ers = true := by
  rw [evaluateRuleStatus]
  cases h : rulePassed reMatch rule ers
  · simp only [Bool.false_eq_true, if_false]
    constructor
    · intro h2; exact absurd h2 (by decide)
    · intro h2; exact absurd h2 (by decide)
  · simp

theorem rulePassedIff (reMatch : String → String → Bool) (rule : Rule)
    (ers : List ExecResult) :
    rulePassed reMatch rule ers = true ↔
      (if condNorm rule = "any" then 0 < passedCount reMatch ers
       else if condNorm rule = "none" then passedCount reMatch ers = 0
       else passedCount reMatch ers = ers.length) := by
  unfold rulePassed
  by_cases h1 : condNorm rule = "all"
  · rw [h1]
    have e1 : ("all" : String) ≠ "any" := by decide
    have e2 : ("all" : String) ≠ "none" := by decide
    simp [e1, e2]
  · by_cases h2 : condNorm rule = "any"
    · rw [h2]
      have e1 : ("any" : String) ≠ "all" := by decide
      simp [e1]
    · by_cases h3 : condNorm rule = "none"
      · rw [h3]
        have e1 : ("none" : String) ≠ "all" := by decide
        have e2 : ("none" : String) ≠ "any" := by decide
        simp [e1, e2]
      · simp [h1, h2, h3]

theorem readRegistrySubRule (w : World) (s : String) :
    (read_registry w s).sub_rule = s := by
  unfold read_registry
  dsimp only
  cases splitArrow (pyStrip (strDrop s 2)) with
  | nil => rfl
  | cons p0 t =>
    cases t with
    | nil => rfl
    | cons p1 t2 =>
      dsimp only
      cases get_hive (split_hive (pyStrip p0)).1 with
      | error e => rfl
      | ok hive =>
        dsimp only
        cases w.regQuery hive (split_hive (pyStrip p0)).2
            (if pyStrip p1 = "" then none else some (pyStrip p1)) with
        | error e => rfl
        | ok v => rfl

theorem readRegistryValueOrError (w : World) (s : String) :
    (read_registry w s).value = "" ∨ (read_registry w s).error = "" := by
  unfold read_registry
  dsimp only
  cases splitArrow (pyStrip (strDrop s 2)) with
  | nil => left; rfl
  | cons p0 t =>
    cases t with
    | nil => left; rfl
    | cons p1 t2 =>
      dsimp only
      cases get_hive (split_hive (pyStrip p0)).1 with
      | error e => left; rfl
      | ok hive =>
        dsimp only
        cases w.regQuery hive (split_hive (pyStrip p0)).2
            (if pyStrip p1 = "" then none else some (pyStrip p1)) with
        | error e => left; rfl
        | ok v => right; rfl

theorem checkFileSubRule (w : World) (s : String) :
    (check_file w s).sub_rule = s := by
  unfold check_file
  dsimp only
  cases w.fileExists (pyStrip ((splitArrow (pyStrip (strDrop s 2))).headD "")) with
  | false => rfl
  | true => rfl

theorem checkFileErrorEmpty (w : World) (s : String) :
    (check_file w s).error = "" := by
  unfold check_file
  dsimp only
  cases w.fileExists (pyStrip ((splitArrow (pyStrip (strDrop s 2))).headD "")) with
  | false => rfl
  | true => rfl

theorem runCommandSubRule (w : World) (s : String) :
    (run_command w s).sub_rule = s := by
  unfold run_command
  dsimp only
  cases w.runCmd (pyStrip (strDrop s 4)) with
  | error e => rfl
  | ok output => rfl

theorem runCommandValueOrError (w : World) (s : String) :
    (run_command w s).value = "" ∨ (run_command w s).error = "" := by
  unfold run_command
  dsimp only
  cases w.runCmd (pyStrip (strDrop s 4)) with
  | error e => left; rfl
  | ok output => right; rfl

theorem executeSubruleValueOrError (w : World) (s : String) :
    (execute_subrule w s).value = "" ∨ (execute_subrule w s).error = "" := by
  unfold execute_subrule
  dsimp only
  by_cases h1 : startsWithStr (pyLower (pyStrip s)) "r:" = true
  · rw [if_pos h1]
    cases hw : w.isWindows with
    | true => rw [if_pos rfl]; exact readRegistryValueOrError w _
    | false => rw [if_neg (by simp)]; left; rfl
  · rw [if_neg h1]
    by_cases h2 : startsWithStr (pyLower (pyStrip s)) "f:" = true
    · rw [if_pos h2]; right; exact checkFileErrorEmpty w _
    · rw [if_neg h2]
      by_cases h3 : startsWithStr (pyLower (pyStrip s)) "cmd:" = true
      · rw [if_pos h3]; exact runCommandValueOrError w _
      · rw [if_neg h3]; left; rfl

/-! ## Claim theorems -/

/-- C2: for every observation whose error field is non-empty,
`evaluate_subrule` returns a FAIL verdict with that error string as the
reason, with no pattern interpretation attempted (the result is the
same for every regex-matching semantics `reMatch`), regardless of any
exists/missing/regex marker present in the expression string. -/
theorem c2_error_fails (reMatch : String → String → Bool) (r : ExecResult)
    (h : r.error ≠ "") : evaluate_subrule reMatch r = (false, r.error) :=
  evaluateSubruleErr reMatch r h

theorem c2_witness :
    (ExecResult.mk "f:/etc/passwd -> exists" "exists" "boom").error ≠ "" ∧
    evaluate_subrule pyMatch ⟨"f:/etc/passwd -> exists", "exists", "boom"⟩ =
      (false, "boom") :=
  ⟨by decide,
   c2_error_fails pyMatch ⟨"f:/etc/passwd -> exists", "exists", "boom"⟩ (by decide)⟩

/-- C8: for every input string, `execute_subrule` trims surrounding
whitespace and lowercases the entire expression before prefix dispatch,
and the observation it returns stores exactly this normalized
expression string, for every backend and every error path. -/
theorem c8_normalized_expression (w : World) (s : String) :
    (execute_subrule w s).sub_rule = pyLower (pyStrip s) := by
  unfold execute_subrule
  dsimp only
  by_cases h1 : startsWithStr (pyLower (pyStrip s)) "r:" = true
  · rw [if_pos h1]
    cases hw : w.isWindows with
    | true => rw [if_pos rfl]; exact readRegistrySubRule w _
    | false => rw [if_neg (by simp)]
  · rw [if_neg h1]
    by_cases h2 : startsWithStr (pyLower (pyStrip s)) "f:" = true
    · rw [if_pos h2]; exact checkFileSubRule w _
    · rw [if_neg h2]
      by_cases h3 : startsWithStr (pyLower (pyStrip s)) "cmd:" = true
      · rw [if_pos h3]; exact runCommandSubRule w _
      · rw [if_neg h3]

/-- C9: the pipeline produces a `RuleResult` list equal in length and
order to the input rule list, the i-th result derived from the i-th
rule, and each result's identifying and descriptive fields (`rule_id`,
`title`, `description`, `rationale`, `remediation`, `compliance`,
`condition`) equal the corresponding input rule's fields unmodified;
only `status` and `details` are newly computed. -/
theorem c9_pipeline_frame (reMatch : String → String → Bool) (w : World)
    (rules : List Rule) :
    (runPipeline reMatch w rules).length = rules.length ∧
    (runPipeline reMatch w rules).map (fun r =>
        (r.rule_id, r.title, r.description, r.rationale, r.remediation,
          r.compliance, r.condition))
      = rules.map (fun r =>
        (r.id, r.title, r.description, r.rationale, r.remediation,
          r.compliance, r.condition)) := by
  constructor
  · simp [runPipeline]
  · simp only [runPipeline, List.map_map]
    rfl

/-- C10: for every probe expression and every backend outcome, the
observation returned by `execute_subrule` has an empty value whenever
its error field is non-empty — the value-empty-on-error guarantee holds
for every error path of every backend. -/
theorem c10_value_empty_on_error (w : World) (s : String)
    (h : (execute_subrule w s).error ≠ "") :
    (execute_subrule w s).value = "" :=
  (executeSubruleValueOrError w s).resolve_right h

def errWorld : World :=
  ⟨false, fun _ _ _ => Except.error "e", fun _ => false,
    fun _ => Except.error "e"⟩

theorem c10_witness :
    (execute_subrule errWorld "x:foo").error ≠ "" ∧
    (execute_subrule errWorld "x:foo").value = "" :=
  ⟨by decide, c10_value_empty_on_error errWorld "x:foo" (by decide)⟩

/-- C1: for every condition policy string and every list of sub-rule
results, with `total` the list length and `passed` the number of
passing verdicts, `evaluate_rule` yields overall PASS under `all` iff
`passed = total`, under `any` iff `passed > 0`, under `none` iff
`passed = 0`, and under any unrecognized (normalized) condition string
exactly as under `all`; the condition is compared case-insensitively
(via `condNorm`, which lowercases it). In particular, on an empty list
the ALL and NONE policies (and any unrecognized one) yield PASS and
the ANY policy yields FAIL, i.e. PASS iff the condition is not ANY. -/
theorem c1_condition_policy (reMatch : String → String → Bool) (rule : Rule)
    (ers : List ExecResult) :
    ((evaluate_rule reMatch rule ers).status = "PASS" ↔
      (if condNorm rule = "any" then 0 < passedCount reMatch ers
       else if condNorm rule = "none" then passedCount reMatch ers = 0
       else passedCount reMatch ers = ers.length)) ∧
    ((evaluate_rule reMatch rule []).status = "PASS" ↔ condNorm rule ≠ "any") := by
  constructor
  · exact (statusPassIff reMatch rule ers).trans (rulePassedIff reMatch rule ers)
  · refine ((statusPassIff reMatch rule []).trans
      (rulePassedIff reMatch rule [])).trans ?_
    by_cases hc : condNorm rule = "any"
    · simp [hc, passedCount]
    · simp [hc, passedCount]

/-- C3 counterexample: under the NONE policy with one passing sub-rule,
the rule fails with no recorded fail reason, so the details string is
rendered as `"1/1 sub-rules passed"` while the list of sub-rule results
is not empty — refuting the claim that this shape of details under FAIL
implies `total = 0`. -/
theorem c3_cex_none_policy :
    (evaluate_rule pyMatch { condition := "none" }
        [⟨"cmd:whoami", "user", ""⟩]).status = "FAIL" ∧
    (evaluate_rule pyMatch { condition := "none" }
        [⟨"cmd:whoami", "user", ""⟩]).details = "1/1 sub-rules passed" ∧
    ([(⟨"cmd:whoami", "user", ""⟩ : ExecResult)] : List ExecResult).length ≠ 0 :=
  ⟨by decide, by decide, by decide⟩

/-- C3 (amended): if `evaluate_rule` produces status FAIL and no fail
reason was recorded from the sub-rules (every sub-rule passed), then
the details string is rendered as `"<passed>/<total> sub-rules passed"`
and either the list of sub-rule results is empty (`total = 0`) or the
normalized condition policy is NONE. -/
theorem c3_details_no_reasons (reMatch : String → String → Bool) (rule : Rule)
    (ers : List ExecResult)
    (hfail : (evaluate_rule reMatch rule ers).status = "FAIL")
    (hall : ∀ r ∈ ers, (evaluate_subrule reMatch r).1 = true) :
    (evaluate_rule reMatch rule ers).details =
      Nat.repr (passedCount reMatch ers) ++ "/" ++ Nat.repr ers.length ++
        " sub-rules passed" ∧
    (ers.length = 0 ∨ condNorm rule = "none") := by
  have hfr : failReasons reMatch ers = [] := by
    apply filterMapNilOfAll
    intro a ha
    simp [hall a ha]
  have hpc : passedCount reMatch ers = ers.length :=
    countPEqLengthOfAll _ ers hall
  have hrp : rulePassed reMatch rule ers = false := by
    cases h : rulePassed reMatch rule ers with
    | false => rfl
    | true =>
      have hp := (statusPassIff reMatch rule ers).mpr h
      rw [hp] at hfail
      exact absurd hfail (by decide)
  constructor
  · rw [evaluateRuleDetails, hfr]
    simp
  · by_cases h1 : condNorm rule = "none"
    · right; exact h1
    · left
      simp only [rulePassed] at hrp
      rw [hpc] at hrp
      by_cases h2 : condNorm rule = "all"
      · rw [h2] at hrp; simp at hrp
      · by_cases h3 : condNorm rule = "any"
        · rw [h3] at hrp
          have e1 : ("any" : String) ≠ "all" := by decide
          rw [if_neg e1, if_pos rfl] at hrp
          have hn := of_decide_eq_false hrp
          omega
        · simp [h2, h3, h1] at hrp

theorem c3_witness :
    (evaluate_rule pyMatch { condition := "any" } ([] : List ExecResult)).details =
      Nat.repr (passedCount pyMatch ([] : List ExecResult)) ++ "/" ++
        Nat.repr (([] : List ExecResult)).length ++ " sub-rules passed" ∧
    ((([] : List ExecResult)).length = 0 ∨
      condNorm { condition := "any" } = "none") :=
  c3_details_no_reasons pyMatch { condition := "any" } [] (by decide)
    (by intro r hr; exact absurd hr (List.not_mem_nil r))

/-- C4 counterexample: the expression (hence the pattern) is lowercased
while the value is not, and Python regex matching is case-sensitive, so
value `"Windows 10 Pro"` with marker pattern `"^Windows 10"` yields
FAIL, not PASS as claimed. -/
theorem c4_cex_case_mismatch :
    evaluate_subrule pyMatch
        ⟨"cmd:ver -> regex:^Windows 10", "Windows 10 Pro", ""⟩ =
      (false, "regex '^windows 10' did not match 'Windows 10 Pro'") ∧
    (evaluate_subrule pyMatch
        ⟨"cmd:ver -> regex:^Windows 10", "Windows 10 Pro", ""⟩).1 ≠ true :=
  ⟨by decide, by decide⟩

/-- C4 (amended): for every observation with empty error whose
lowercased expression contains no `-> exists` and no `-> missing`
substring but does end with a `-> regex:<pattern>` marker,
`evaluate_subrule` returns PASS iff the lowercased, stripped pattern
matches the observation value starting at position zero (`reMatch`, the
semantics of Python `re.match`: a prefix match, not whole-string
equality), and FAIL with a reason naming both pattern and value
otherwise. In particular, value `"Windows 10 Pro"` with marker pattern
`"^Windows 10"` yields FAIL (the pattern is lowercased to
`"^windows 10"` while the value keeps its case), and value
`"windows 10 pro"` yields PASS (a prefix match: the value extends
beyond the pattern). -/
theorem c4_regex_prefix_match (reMatch : String → String → Bool)
    (r : ExecResult) (p : String)
    (he : r.error = "")
    (h1 : containsSub (pyLower r.sub_rule) "-> exists" = false)
    (h2 : containsSub (pyLower r.sub_rule) "-> missing" = false)
    (h3 : regexMarkerSearch (pyLower r.sub_rule) = some p) :
    ((evaluate_subrule reMatch r).1 = reMatch (pyStrip p) r.value ∧
     (reMatch (pyStrip p) r.value = false →
       (evaluate_subrule reMatch r).2 =
         "regex '" ++ pyStrip p ++ "' did not match '" ++ r.value ++ "'")) ∧
    evaluate_subrule pyMatch
        ⟨"cmd:ver -> regex:^Windows 10", "Windows 10 Pro", ""⟩ =
      (false, "regex '^windows 10' did not match 'Windows 10 Pro'") ∧
    evaluate_subrule pyMatch
        ⟨"cmd:ver -> regex:^Windows 10", "windows 10 pro", ""⟩ =
      (true, "regex matched") := by
  refine ⟨?_, by decide, by decide⟩
  have hx : evaluate_subrule reMatch r =
      (if reMatch (pyStrip p) r.value then (true, "regex matched")
       else (false, "regex '" ++ pyStrip p ++ "' did not match '" ++
         r.value ++ "'")) := by
    unfold evaluate_subrule
    rw [if_neg (by simp [he])]
    dsimp only
    simp only [h1, h2, h3, Bool.false_eq_true, if_false]
  constructor
  · rw [hx]
    cases hrm : reMatch (pyStrip p) r.value <;> simp [hrm]
  · intro hf
    rw [hx, hf]
    simp

theorem c4_witness :
    (evaluate_subrule pyMatch
        ⟨"cmd:ver -> regex:^windows 10", "windows 10 pro", ""⟩).1 =
      pyMatch (pyStrip "^windows 10") "windows 10 pro" :=
  (c4_regex_prefix_match pyMatch
    ⟨"cmd:ver -> regex:^windows 10", "windows 10 pro", ""⟩ "^windows 10"
    rfl (by decide) (by decide) (by decide)).1.1

/-- The world used by the C5 counterexample and witness: the shell
reports stdout `" hello "` (leading and trailing whitespace) for every
command. -/
def cmdWorld : World :=
  ⟨false, fun _ _ _ => Except.error "e", fun _ => false,
    fun _ => Except.ok " hello "⟩

/-- C5 counterexample: for a successful command invocation whose
captured stdout is `" hello "`, the observation value is `"hello"` —
Python `.strip()` removes leading whitespace as well, so the claimed
value `" hello"` (trailing trimmed, leading preserved) is wrong. -/
theorem c5_cex_leading_whitespace :
    cmdWorld.runCmd (pyStrip (strDrop "cmd:echo" 4)) = Except.ok " hello " ∧
    (run_command cmdWorld "cmd:echo").value = "hello" ∧
    (run_command cmdWorld "cmd:echo").value ≠ " hello" ∧
    (run_command cmdWorld "cmd:echo").error = "" :=
  ⟨rfl, by decide, by decide, by decide⟩

/-- C5 (amended): for every command probe expression, a successful
invocation yields an observation whose value is the command's captured
standard output with BOTH leading and trailing whitespace trimmed
(Python `str.strip`) and whose error is empty; a non-zero exit status
yields an observation with a non-empty error string and an empty value
(no partial output surfaced). -/
theorem c5_command_outcomes (w : World) (s : String) :
    (∀ out, w.runCmd (pyStrip (strDrop s 4)) = Except.ok out →
       run_command w s = ⟨s, pyStrip out, ""⟩) ∧
    (∀ e, w.runCmd (pyStrip (strDrop s 4)) = Except.error e →
       run_command w s = ⟨s, "", "Command error: " ++ e⟩ ∧
       (run_command w s).error ≠ "") := by
  constructor
  · intro out h
    unfold run_command
    dsimp only
    rw [h]
  · intro e h
    unfold run_command
    dsimp only
    rw [h]
    exact ⟨rfl, appendNeEmptyLeft _ _ (by decide)⟩

theorem c5_witness :
    run_command cmdWorld "cmd:ls" = ⟨"cmd:ls", pyStrip " hello ", ""⟩ :=
  (c5_command_outcomes cmdWorld "cmd:ls").1 " hello " rfl

/-- C6: for every observation with empty error, `evaluate_subrule`
checks expectation markers over the whole lowercased expression string
in a fixed priority order: a `-> exists` substring anywhere governs
first (PASS iff value = `"exists"`), then `-> missing` (PASS iff
value = `"missing"`), then a trailing `-> regex:<pattern>` marker; if
none of these markers is present the verdict is PASS with reason
`"no condition recognized"`. -/
theorem c6_marker_priority (reMatch : String → String → Bool)
    (r : ExecResult) (he : r.error = "") :
    (containsSub (pyLower r.sub_rule) "-> exists" = true →
      evaluate_subrule reMatch r =
        (if r.value = "exists" then (true, "file found")
         else (false, "file not found (" ++ r.value ++ ")"))) ∧
    (containsSub (pyLower r.sub_rule) "-> exists" = false →
     containsSub (pyLower r.sub_rule) "-> missing" = true →
      evaluate_subrule reMatch r =
        (if r.value = "missing" then (true, "file is missing")
         else (false, "file is present (" ++ r.value ++ ")"))) ∧
    (∀ p, containsSub (pyLower r.sub_rule) "-> exists" = false →
     containsSub (pyLower r.sub_rule) "-> missing" = false →
     regexMarkerSearch (pyLower r.sub_rule) = some p →
      evaluate_subrule reMatch r =
        (if reMatch (pyStrip p) r.value then (true, "regex matched")
         else (false, "regex '" ++ pyStrip p ++ "' did not match '" ++
           r.value ++ "'"))) ∧
    (containsSub (pyLower r.sub_rule) "-> exists" = false →
     containsSub (pyLower r.sub_rule) "-> missing" = false →
     regexMarkerSearch (pyLower r.sub_rule) = none →
      evaluate_subrule reMatch r = (true, "no condition recognized")) := by
  refine ⟨?_, ?_, ?_, ?_⟩
  · intro h1
    unfold evaluate_subrule
    rw [if_neg (by simp [he])]
    dsimp only
    rw [if_pos (by simp [h1])]
  · intro h1 h2
    unfold evaluate_subrule
    rw [if_neg (by simp [he])]
    dsimp only
    rw [if_neg (by simp [h1]), if_pos (by simp [h2])]
  · intro p h1 h2 h3
    unfold evaluate_subrule
    rw [if_neg (by simp [he])]
    dsimp only
    rw [if_neg (by simp [h1]), if_neg (by simp [h2])]
    simp only [h3]
  · intro h1 h2 h3
    unfold evaluate_subrule
    rw [if_neg (by simp [he])]
    dsimp only
    rw [if_neg (by simp [h1]), if_neg (by simp [h2])]
    simp only [h3]

theorem c6_witness :
    evaluate_subrule pyMatch ⟨"cmd:whoami", "user", ""⟩ =
      (true, "no condition recognized") :=
  (c6_marker_priority pyMatch ⟨"cmd:whoami", "user", ""⟩ rfl).2.2.2
    (by decide) (by decide) (by decide)

/-- The world used by the C7 witness: every backend oracle errors; no
backend is reached for an unknown-prefix expression. -/
def unknownWorld : World :=
  ⟨false, fun _ _ _ => Except.error "e", fun _ => false,
    fun _ => Except.error "e"⟩

/-- C7: for every probe expression whose trimmed, lowercased form does
not start with `r:`, `f:` or `cmd:`, `execute_subrule` returns an
observation with empty value and a non-empty error reading
`"Unknown prefix in <expression>"`, the resulting sub-rule verdict is
FAIL with a reason mentioning "unknown prefix" (case-insensitively, as
the message capitalizes "Unknown"), and when such an expression is the
sole sub-rule of a rule under the ALL policy the whole rule's status is
FAIL. -/
theorem c7_unknown_prefix (reMatch : String → String → Bool) (w : World)
    (s : String) (rule : Rule)
    (h1 : startsWithStr (pyLower (pyStrip s)) "r:" = false)
    (h2 : startsWithStr (pyLower (pyStrip s)) "f:" = false)
    (h3 : startsWithStr (pyLower (pyStrip s)) "cmd:" = false)
    (hc : rule.condition = "all") :
    (execute_subrule w s).value = "" ∧
    (execute_subrule w s).error = "Unknown prefix in " ++ pyLower (pyStrip s) ∧
    (execute_subrule w s).error ≠ "" ∧
    evaluate_subrule reMatch (execute_subrule w s) =
      (false, "Unknown prefix in " ++ pyLower (pyStrip s)) ∧
    containsSub (pyLower (evaluate_subrule reMatch (execute_subrule w s)).2)
      "unknown prefix" = true ∧
    (evaluate_rule reMatch rule [execute_subrule w s]).status = "FAIL" := by
  have hx : execute_subrule w s =
      ⟨pyLower (pyStrip s), "", "Unknown prefix in " ++ pyLower (pyStrip s)⟩ := by
    unfold execute_subrule
    dsimp only
    rw [if_neg (by simp [h1]), if_neg (by simp [h2]), if_neg (by simp [h3])]
  have hne : ("Unknown prefix in " ++ pyLower (pyStrip s) : String) ≠ "" :=
    appendNeEmptyLeft _ _ (by decide)
  have hv : evaluate_subrule reMatch (execute_subrule w s) =
      (false, "Unknown prefix in " ++ pyLower (pyStrip s)) := by
    rw [hx]
    exact evaluateSubruleErr reMatch _ hne
  have hcontains :
      containsSub (pyLower ("Unknown prefix in " ++ pyLower (pyStrip s)))
        "unknown prefix" = true := by
    rw [pyLowerAppend]
    have hl : pyLower "Unknown prefix in " = "unknown prefix in " := by decide
    rw [hl]
    unfold containsSub
    apply containsListOfIsPrefixOf
    rw [strAppendData]
    have hsplit : ("unknown prefix in " : String).data =
        ("unknown prefix" : String).data ++ (" in " : String).data := by decide
    rw [hsplit, List.append_assoc]
    exact isPrefixOfAppendSelf _ _
  have hcond : condNorm rule = "all" := by
    unfold condNorm
    rw [hc, if_neg (by decide : ¬("all" : String) = "")]
    decide
  have hstatus : (evaluate_rule reMatch rule [execute_subrule w s]).status =
      "FAIL" := by
    rw [evaluateRuleStatus]
    have hpc : passedCount reMatch [execute_subrule w s] = 0 := by
      unfold passedCount
      simp [List.countP_cons, hv]
    have hrp : rulePassed reMatch rule [execute_subrule w s] = false := by
      simp only [rulePassed]
      rw [hcond]
      rw [if_pos rfl]
      rw [hpc]
      rfl
    rw [hrp]
    simp
  refine ⟨by rw [hx], by rw [hx], ?_, hv, ?_, hstatus⟩
  · rw [hx]
    exact hne
  · rw [hv]
    exact hcontains

theorem c7_witness :
    (execute_subrule unknownWorld "x:something").error ≠ "" ∧
    containsSub (pyLower (evaluate_subrule pyMatch
      (execute_subrule unknownWorld "x:something")).2) "unknown prefix" = true ∧
    (evaluate_rule pyMatch { condition := "all", rules := ["x:something"] }
      [execute_subrule unknownWorld "x:something"]).status = "FAIL" := by
  have h := c7_unknown_prefix pyMatch unknownWorld "x:something"
    { condition := "all", rules := ["x:something"] }
    (by decide) (by decide) (by decide) rfl
  exact ⟨h.2.2.1, h.2.2.2.2.1, h.2.2.2.2.2⟩

end WinAudit
